import Mathlib

/-!
Verification of the modbus_mvp read-through cache and polling coordinator.

The development shallowly embeds the core of the repository:
  * `LatestValues` (backend/app/models.py): one persisted snapshot row.
  * `read_registers` (backend/app/modbus_client.py, app/modbus_client.py):
    a single bounded read attempt against the Modbus device.
  * `create_snapshot`, `read_latest_snapshot`, `read_snapshot_history`
    (backend/app/crud.py, app/crud.py): the snapshot store.
  * the FastAPI handlers `api_read_latest`, `api_snapshot`, `api_history`,
    `api_poll`, `api_read_live` (backend/app/main.py, app/main.py).
  * the background polling loop bodies of `modbus_polling_task`
    (app/main.py and backend/app/main.py define the loop without any
    try/except; backend/app/modbus_client.py defines a second, shadowed
    loop with a try/except).

Effects are made explicit: the transport outcome of one device read is a
value of `ReadOutcome`, a raised-but-uncaught exception is `Except.error`,
the database table is a `List LatestValues` in insertion (rowid) order, and
the `ORDER BY timestamp DESC` SQL clause is a relation, because SQL fixes
the output only up to the order of rows sharing a timestamp.
-/

namespace ModbusMvp

/-- Row of the `latest_values` table (backend/app/models.py `LatestValues`):
`id` integer primary key (autoincrement), `timestamp` assigned by the
database at insert time (`server_default=func.now()`), `registers` a JSON
list of register values.  Timestamps are modelled as `Nat`. -/
structure LatestValues where
  id : Nat
  timestamp : Nat
  registers : List Nat
  deriving DecidableEq

/-- Outcome of one interaction with the Modbus device inside
`read_registers` (modbus_client.py): `client.connect()` returns `False`;
`client.read_holding_registers` raises a `ModbusException` (pymodbus signals
protocol errors and read timeouts this way); the reply `rr` satisfies
`rr.isError()`; or the reply carries the register values. -/
inductive ReadOutcome where
  | connectFailed
  | modbusRaised
  | errorResponse
  | registers (regs : List Nat)
  deriving DecidableEq

/-- The exception type caught by `read_registers`' `except ModbusException`
clause. -/
inductive ModbusExc where
  | modbusException
  deriving DecidableEq

/-- The `try` block of `read_registers` (backend/app/modbus_client.py lines
24-41, app/modbus_client.py lines 18-32): failed connect returns `None`,
an error reply returns `None`, a successful reply returns the registers,
and a `ModbusException` raised by the read escapes the block. -/
def readRegistersTry : ReadOutcome → Except ModbusExc (Option (List Nat))
  | .connectFailed => .ok none
  | .modbusRaised => .error .modbusException
  | .errorResponse => .ok none
  | .registers regs => .ok (some regs)

/-- `read_registers` (backend/app/modbus_client.py lines 17-49): the `try`
block wrapped in `except ModbusException: return None`.  The `Except String`
codomain records whether an exception propagates out of the function to its
caller. -/
def read_registers (o : ReadOutcome) : Except String (Option (List Nat)) :=
  match readRegistersTry o with
  | .ok v => .ok v
  | .error _ => .ok none

/-- The value produced by a completed `read_registers()` call: registers on
success, `None` on every transport failure. -/
def readRegistersVal : ReadOutcome → Option (List Nat)
  | .registers regs => some regs
  | _ => none

/-- The rowid SQLite assigns to the next inserted row: one more than the
largest existing id. -/
def nextId (db : List LatestValues) : Nat :=
  (db.map (fun s => s.id)).foldl max 0 + 1

/-- `create_snapshot` (backend/app/crud.py lines 14-26): inserts a new row
whose id and timestamp are assigned by the database (`now` is the value of
`func.now()` at commit time) and returns the refreshed row.  Result: the
table after the insert and the created row. -/
def create_snapshot (db : List LatestValues) (now : Nat) (regs : List Nat) :
    List LatestValues × LatestValues :=
  let snap : LatestValues := ⟨nextId db, now, regs⟩
  (db ++ [snap], snap)

/-- An output row order permitted by `ORDER BY timestamp DESC`: pairwise,
every later row's timestamp is at most every earlier row's.  SQL does not
constrain the relative order of rows sharing a timestamp. -/
def sortedByTimestampDesc (out : List LatestValues) : Prop :=
  out.Pairwise (fun a b => b.timestamp ≤ a.timestamp)

/-- The relation between the table and a row order the database may emit for
`SELECT * FROM latest_values ORDER BY timestamp DESC`. -/
def orderByTimestampDesc (db out : List LatestValues) : Prop :=
  List.Perm db out ∧ sortedByTimestampDesc out

/-- `read_latest_snapshot` (backend/app/crud.py lines 29-45, app/crud.py
lines 25-36): `SELECT ... ORDER BY timestamp DESC LIMIT 1`, then
`.scalars().first()` — the head of a permitted row order, or `None` on an
empty table.  Relational, since the tie order is not determined by the
query. -/
def read_latest_snapshot (db : List LatestValues) (r : Option LatestValues) : Prop :=
  ∃ out, orderByTimestampDesc db out ∧ r = out.head?

/-- SQLite `LIMIT n` semantics on an ordered result: a nonnegative `n` keeps
the first `n` rows; a negative `n` means no upper bound (SQLite: "If the
LIMIT expression evaluates to a negative value, then there is no upper bound
on the number of rows returned").  The configured database is
`sqlite+aiosqlite` (backend/app/config.py line 18). -/
def sqlLimit (n : Int) (l : List LatestValues) : List LatestValues :=
  if 0 ≤ n then l.take n.toNat else l

/-- `read_snapshot_history` (backend/app/crud.py lines 48-55):
`SELECT ... ORDER BY timestamp DESC LIMIT limit`, all rows. -/
def read_snapshot_history (db : List LatestValues) (limit : Int)
    (rows : List LatestValues) : Prop :=
  ∃ out, orderByTimestampDesc db out ∧ rows = sqlLimit limit out

/-- What a handler sends back: a JSON body (`timestamp`, `registers`, and
for the cache-fallback branch of `/read_live` a `note`), or an
`HTTPException` with a status code and detail string. -/
inductive Response where
  | json (timestamp : Option Nat) (registers : List Nat) (note : Option String)
  | httpError (status : Nat) (detail : String)
  deriving DecidableEq

/-- Detail string of the 404 raised by `/read_latest` and `/snapshot`. -/
def noCacheDetail : String := "Нет данных в кеше"

/-- Detail string of the 503 raised by `/poll`. -/
def pollFailDetail : String := "Не удалось опросить устройство"

/-- Detail string of the 503 raised by `/read_live`. -/
def liveFailDetail : String := "Живой опрос не удался и кеш пуст"

/-- The `note` field `/read_live` adds to a cache-fallback body. -/
def fallbackNote : String := "Вернуто последнее значение из кеша"

/-- Shared body of `api_read_latest` and `api_snapshot`: 404 when
`read_latest_snapshot` found nothing, otherwise the row's timestamp and
registers. -/
def latestResponse : Option LatestValues → Response
  | none => .httpError 404 noCacheDetail
  | some s => .json (some s.timestamp) s.registers none

/-- `api_read_latest` (backend/app/main.py lines 68-83): `GET /read_latest`.
The handler queries only the store; it never calls `read_registers`. -/
def api_read_latest (db : List LatestValues) (resp : Response) : Prop :=
  ∃ r, read_latest_snapshot db r ∧ resp = latestResponse r

/-- `api_snapshot` (backend/app/main.py lines 89-102): `GET /snapshot`.
Identical body to `api_read_latest`; no device access. -/
def api_snapshot (db : List LatestValues) (resp : Response) : Prop :=
  ∃ r, read_latest_snapshot db r ∧ resp = latestResponse r

/-- FastAPI default for the `limit` query parameter of `GET /history`
(backend/app/main.py line 106, `limit: int = 10`): an omitted parameter
becomes `10`. -/
def api_history_limit (param : Option Int) : Int := param.getD 10

/-- `api_history` (backend/app/main.py lines 105-113): `GET /history`,
returning the rows of `read_snapshot_history` with the (possibly defaulted)
limit. -/
def api_history (param : Option Int) (db : List LatestValues)
    (rows : List LatestValues) : Prop :=
  read_snapshot_history db (api_history_limit param) rows

/-- `api_poll` (backend/app/main.py lines 116-131, app/main.py lines
119-132): `POST /poll`.  A failed read raises 503 without touching the
store; a successful read is persisted with `create_snapshot` and the
persisted row's timestamp and registers are returned.  Result: response and
table after the call. -/
def api_poll (o : ReadOutcome) (db : List LatestValues) (now : Nat) :
    Response × List LatestValues :=
  match readRegistersVal o with
  | none => (.httpError 503 pollFailDetail, db)
  | some regs =>
    let p := create_snapshot db now regs
    (.json (some p.2.timestamp) p.2.registers none, p.1)

/-- The body `/read_live` builds from the fallback query's result: 503 when
the cache is also empty, otherwise the cached row plus the fallback note. -/
def fallbackResponse : Option LatestValues → Response
  | none => .httpError 503 liveFailDetail
  | some s => .json (some s.timestamp) s.registers (some fallbackNote)

/-- `api_read_live` (backend/app/main.py lines 134-159, app/main.py lines
76-100): `GET /read_live`.  A successful read returns
`{timestamp: None, registers}` — and writes nothing to the store; a failed
read falls back to `read_latest_snapshot`.  Result: response and table
after the call (the handler never inserts, so the table part is `db` in
both branches). -/
def api_read_live (o : ReadOutcome) (db : List LatestValues)
    (result : Response × List LatestValues) : Prop :=
  match readRegistersVal o with
  | some regs => result = (.json none regs none, db)
  | none => ∃ r, read_latest_snapshot db r ∧ result = (fallbackResponse r, db)

/-- Outcome of the `db.commit()` inside `create_snapshot`: either the insert
succeeds or the persistence medium fails (a `StorageError`, e.g. an
`OperationalError` raised by SQLAlchemy). -/
inductive StorageOutcome where
  | ok
  | storageError
  deriving DecidableEq

/-- One iteration body of `modbus_polling_task` as defined in app/main.py
lines 143-153 and backend/app/main.py lines 171-182 (the definition that
shadows the imported one and is the task `on_startup` launches).  There is
no try/except: a read returning `None` is skipped silently, but an exception
raised by `create_snapshot` propagates out of the iteration — `Except.error`
records that escape. -/
def modbusPollingTickMain (o : ReadOutcome) (st : StorageOutcome) (now : Nat)
    (db : List LatestValues) : Except String (List LatestValues) :=
  match readRegistersVal o with
  | none => .ok db
  | some regs =>
    match st with
    | .storageError => .error "StorageError"
    | .ok => .ok (create_snapshot db now regs).1

/-- What one tick of the backend/app/modbus_client.py loop observes: either
`asyncio.wait_for` fires its 5.0 s timeout, or `read_registers()` completes
with some transport outcome. -/
inductive ClientAttempt where
  | waitForTimeout
  | completed (o : ReadOutcome)
  deriving DecidableEq

/-- One iteration body of `modbus_polling_task` as defined in
backend/app/modbus_client.py lines 53-64 (shadowed in backend/app/main.py
and never run).  `except asyncio.TimeoutError` and `except Exception` catch
every failure and log it; `if regs:` skips the save when the read failed or
returned an empty register list.  Result: table after the tick and whether
an error was logged. -/
def modbusPollingTickClient (a : ClientAttempt) (st : StorageOutcome) (now : Nat)
    (db : List LatestValues) : List LatestValues × Bool :=
  match a with
  | .waitForTimeout => (db, true)
  | .completed o =>
    match readRegistersVal o with
    | none => (db, false)
    | some [] => (db, false)
    | some regs =>
      match st with
      | .storageError => (db, true)
      | .ok => ((create_snapshot db now regs).1, false)

/-- The main.py polling loop run for `n` ticks, starting from an empty
table, fed by a schedule of (transport outcome, storage outcome, commit
time) per tick.  An `Except.error` of one tick stops the loop: nothing in
app/main.py or backend/app/main.py catches it, so the background task
terminates. -/
def runModbusPollingMain (events : Nat → ReadOutcome × StorageOutcome × Nat) :
    Nat → Except String (List LatestValues)
  | 0 => .ok []
  | n + 1 =>
    match runModbusPollingMain events n with
    | .error e => .error e
    | .ok db => modbusPollingTickMain (events n).1 (events n).2.1 (events n).2.2 db

/-- The configuration struct (backend/app/config.py `Settings`, lines 6-28).
It has exactly these fields; in particular there is no per-attempt timeout
field. -/
structure Settings where
  MODBUS_HOST : String
  MODBUS_PORT : Nat
  MODBUS_UNIT_ID : Nat
  MODBUS_START_ADDR : Nat
  MODBUS_COUNT : Nat
  POLL_INTERVAL : Nat
  DATABASE_URL : String
  API_HOST : String
  API_PORT : Nat
  FRONTEND_URLS : List String
  deriving DecidableEq

/-- `settings = Settings()` (backend/app/config.py line 32) with the
declared defaults. -/
def settings : Settings :=
  ⟨"192.168.0.100", 502, 1, 0, 10, 1, "sqlite+aiosqlite:///./modbus_cache.db",
    "0.0.0.0", 8000, ["http://localhost:5173", "http://127.0.0.1:5173"]⟩

/-- The explicit bound, in whole seconds, a call site places around one
`read_registers()` attempt (`none` = no `asyncio.wait_for` around the
await). -/
structure AttemptSpec where
  timeoutSeconds : Option Nat
  deriving DecidableEq

/-- The attempt made by the running polling loops (`regs = await
read_registers()`, app/main.py line 145 and backend/app/main.py line 173):
no `wait_for`, so no timeout from the caller, whatever the settings. -/
def mainLoopAttempt (_s : Settings) : AttemptSpec := ⟨none⟩

/-- The attempt made by the shadowed backend/app/modbus_client.py loop
(line 55): `asyncio.wait_for(read_registers(), timeout=5.0)` — a hardcoded
5.0 s, not a settings value. -/
def clientLoopAttempt (_s : Settings) : AttemptSpec := ⟨some 5⟩

/-- The attempt made by the on-demand handlers (`await read_registers()`,
backend/app/main.py lines 124 and 144): no `wait_for`. -/
def onDemandAttempt (_s : Settings) : AttemptSpec := ⟨none⟩

/-- Modelled from the spec (§4.1): "`latest()` ... returns the snapshot with
maximum `(capturedAt, id)`".  Used only to compare the specified tie-break
with the query the code runs. -/
def specLatest (db : List LatestValues) : Option LatestValues :=
  db.foldl
    (fun acc s =>
      match acc with
      | none => some s
      | some t =>
        if t.timestamp < s.timestamp ∨ (t.timestamp = s.timestamp ∧ t.id < s.id) then
          some s
        else some t)
    none

/-- A concrete row used in counterexamples and witnesses: id 1, timestamp 5,
registers `[10]`. -/
def exRowA : LatestValues := ⟨1, 5, [10]⟩

/-- A second concrete row sharing `exRowA`'s timestamp (realistic with the
1 s poll interval and second-resolution `func.now()`): id 2, registers
`[20]`. -/
def exRowB : LatestValues := ⟨2, 5, [20]⟩

/-- A concrete row for witnesses: id 1, timestamp 4, registers `[9]`. -/
def wRow : LatestValues := ⟨1, 4, [9]⟩

/-! ## Helper lemmas about the store queries -/

theorem read_latest_snapshot_none_iff {db : List LatestValues}
    {r : Option LatestValues} (h : read_latest_snapshot db r) :
    r = none ↔ db = [] := by
  obtain ⟨out, ⟨hperm, _⟩, hr⟩ := h
  rw [hr, List.head?_eq_none_iff]
  constructor
  · intro hout; subst hout; exact hperm.eq_nil
  · intro hdb; subst hdb; exact hperm.symm.eq_nil

theorem read_latest_snapshot_some {db : List LatestValues} {s : LatestValues}
    (h : read_latest_snapshot db (some s)) :
    s ∈ db ∧ ∀ t ∈ db, t.timestamp ≤ s.timestamp := by
  obtain ⟨out, ⟨hperm, hsort⟩, hr⟩ := h
  cases out with
  | nil => simp at hr
  | cons a l =>
    have hs : s = a := by simpa using hr
    subst hs
    rw [sortedByTimestampDesc, List.pairwise_cons] at hsort
    refine ⟨hperm.mem_iff.mpr (by simp), ?_⟩
    intro t ht
    rcases List.mem_cons.mp (hperm.mem_iff.mp ht) with h1 | h2
    · exact h1 ▸ Nat.le_refl _
    · exact hsort.1 t h2

theorem read_latest_snapshot_singleton {x : LatestValues}
    {r : Option LatestValues} (h : read_latest_snapshot [x] r) : r = some x := by
  obtain ⟨out, ⟨hperm, _⟩, hr⟩ := h
  have hout : out = [x] := List.perm_singleton.mp hperm.symm
  subst hout
  simpa using hr

/-! ## C2 — latest(): maximum timestamp, but no id tie-break -/

/-- C2 (counterexample): on the two-row store `[exRowA, exRowB]` whose rows
share timestamp 5, the query `ORDER BY timestamp DESC LIMIT 1` permits the
output order `[exRowA, exRowB]` and hence may return `exRowA` (id 1), while
the claimed maximum-`(capturedAt, id)` snapshot is `exRowB` (id 2). -/
theorem read_latest_snapshot_tie_break_not_id :
    read_latest_snapshot [exRowA, exRowB] (some exRowA) ∧
    specLatest [exRowA, exRowB] = some exRowB ∧ exRowA ≠ exRowB := by
  refine ⟨⟨[exRowA, exRowB], ⟨List.Perm.refl _, ?_⟩, rfl⟩, by decide, by decide⟩
  show List.Pairwise _ _
  decide

/-- C2 (amended): `read_latest_snapshot` returns absence exactly on an empty
store, and otherwise a stored snapshot of maximum `timestamp`; among rows
sharing the maximal timestamp the returned row is not determined by the
query (it orders by `timestamp` alone, with no id tie-break). -/
theorem read_latest_snapshot_max_timestamp (db : List LatestValues)
    (r : Option LatestValues) (h : read_latest_snapshot db r) :
    (r = none ↔ db = []) ∧
    ∀ s, r = some s → s ∈ db ∧ ∀ t ∈ db, t.timestamp ≤ s.timestamp := by
  refine ⟨read_latest_snapshot_none_iff h, ?_⟩
  intro s hs
  exact read_latest_snapshot_some (hs ▸ h)

/-- Witness for `read_latest_snapshot_max_timestamp` on the one-row store
`[wRow]`. -/
theorem read_latest_snapshot_max_timestamp_witness :
    ((some wRow = none) ↔ ([wRow] : List LatestValues) = []) ∧
    ∀ s, some wRow = some s → s ∈ [wRow] ∧ ∀ t ∈ [wRow], t.timestamp ≤ s.timestamp :=
  read_latest_snapshot_max_timestamp [wRow] (some wRow)
    ⟨[wRow], ⟨List.Perm.refl _, by show List.Pairwise _ _; decide⟩, rfl⟩

/-! ## C7 — a poll attempt never raises -/

/-- C7: every enumerated transport failure mode of a single
`read_registers()` attempt — failed connect, `ModbusException` raised by the
read (pymodbus signals protocol errors and timeouts this way), or an error
reply — yields the value `None`; no path returns `Except.error`, i.e. no
exception propagates to the caller, and a successful read yields the
registers. -/
theorem read_registers_no_raise (o : ReadOutcome) :
    (∃ v, read_registers o = Except.ok v) ∧
    (o = ReadOutcome.connectFailed ∨ o = ReadOutcome.modbusRaised ∨
        o = ReadOutcome.errorResponse → read_registers o = Except.ok none) ∧
    (∀ regs, o = ReadOutcome.registers regs →
      read_registers o = Except.ok (some regs)) := by
  cases o <;> simp [read_registers, readRegistersTry]

/-- Witness for `read_registers_no_raise` at the raised-exception mode. -/
theorem read_registers_no_raise_witness :
    read_registers ReadOutcome.modbusRaised = Except.ok none :=
  (read_registers_no_raise ReadOutcome.modbusRaised).2.1 (Or.inr (Or.inl rfl))

/-! ## C9 — the per-attempt timeout is not a configuration value -/

/-- C9 (counterexample): at the default settings the running polling loop
and the on-demand handlers place no timeout around the read attempt, and
the shadowed client loop hardcodes 5 s; no attempt is bounded by a
configured per-attempt timeout (the `Settings` surface has no such
field). -/
theorem attempt_timeout_not_from_settings :
    (mainLoopAttempt settings).timeoutSeconds = none ∧
    (onDemandAttempt settings).timeoutSeconds = none ∧
    (clientLoopAttempt settings).timeoutSeconds = some 5 :=
  ⟨rfl, rfl, rfl⟩

/-- C9 (amended): for every configuration value the attempt bounds are the
same — the polling loop that actually runs and the on-demand reads apply no
caller-side timeout, and the shadowed modbus_client.py loop uses a fixed
5.0 s; no per-attempt timeout is drawn from the configuration surface. -/
theorem attempt_timeout_fixed (s : Settings) :
    mainLoopAttempt s = ⟨none⟩ ∧ onDemandAttempt s = ⟨none⟩ ∧
      clientLoopAttempt s = ⟨some 5⟩ :=
  ⟨rfl, rfl, rfl⟩

/-! ## C10 — default history limit -/

/-- C10: `GET /history` with the `limit` query parameter omitted runs the
history query with limit 10 (`limit: int = 10`). -/
theorem api_history_default_limit :
    api_history_limit none = 10 ∧
    ∀ db rows, api_history none db rows ↔ read_snapshot_history db 10 rows :=
  ⟨rfl, fun _ _ => Iff.rfl⟩

/-! ## C4 — a StorageError escapes the polling loop that actually runs -/

/-- C4: one tick of the polling loop as launched (the `modbus_polling_task`
of app/main.py, and of backend/app/main.py, which shadows the imported
protected one), fed a transport success and a store whose append raises,
ends in `Except.error` — the StorageError escapes the loop body, which has
no try/except, and the background task terminates; the shadowed
backend/app/modbus_client.py body would have caught and logged it and kept
the table unchanged. -/
theorem modbus_polling_storage_error_escapes :
    runModbusPollingMain
        (fun _ => (ReadOutcome.registers [1, 2, 3], StorageOutcome.storageError, 0)) 1
      = Except.error "StorageError" ∧
    modbusPollingTickClient (ClientAttempt.completed (ReadOutcome.registers [1, 2, 3]))
        StorageOutcome.storageError 0 [] = ([], true) :=
  ⟨rfl, rfl⟩

/-! ## C1 — the three-tier policy of GET /read_live -/

/-- C1: for every transport outcome and store state, `GET /read_live`
implements the three-tier policy: a successful read returns the fresh
registers tagged live (`timestamp` null); a failed read with a non-empty
store returns a valid `read_latest_snapshot` result with its persisted
timestamp and the fallback note; a failed read with an empty store raises
503. -/
theorem api_read_live_three_tier (o : ReadOutcome) (db : List LatestValues)
    (resp : Response) (db' : List LatestValues)
    (h : api_read_live o db (resp, db')) :
    (∀ regs, readRegistersVal o = some regs →
      resp = Response.json none regs none) ∧
    (readRegistersVal o = none → db ≠ [] →
      ∃ s, read_latest_snapshot db (some s) ∧
        resp = Response.json (some s.timestamp) s.registers (some fallbackNote)) ∧
    (readRegistersVal o = none → db = [] →
      resp = Response.httpError 503 liveFailDetail) := by
  unfold api_read_live at h
  cases hv : readRegistersVal o with
  | some regs =>
    rw [hv] at h
    replace h : (resp, db') = (Response.json none regs none, db) := h
    rw [Prod.mk.injEq] at h
    refine ⟨?_, ?_, ?_⟩
    · intro regs2 hr2
      injection hr2 with he
      subst he
      exact h.1
    · intro hn; exact Option.noConfusion hn
    · intro hn; exact Option.noConfusion hn
  | none =>
    rw [hv] at h
    replace h : ∃ r, read_latest_snapshot db r ∧
        (resp, db') = (fallbackResponse r, db) := h
    obtain ⟨r, hr, heq⟩ := h
    rw [Prod.mk.injEq] at heq
    refine ⟨?_, ?_, ?_⟩
    · intro regs2 hr2; exact Option.noConfusion hr2
    · intro _ hdb
      cases r with
      | none => exact absurd ((read_latest_snapshot_none_iff hr).mp rfl) hdb
      | some s => exact ⟨s, hr, heq.1⟩
    · intro _ hdb
      cases r with
      | none => exact heq.1
      | some s =>
        exact absurd ((read_latest_snapshot_none_iff hr).mpr hdb) (by simp)

/-- Witness for `api_read_live_three_tier`: a failed read over the one-row
store `[wRow]` returns the cached row with the fallback note. -/
theorem api_read_live_three_tier_witness :
    ∃ s, read_latest_snapshot [wRow] (some s) ∧
      Response.json (some 4) [9] (some fallbackNote)
        = Response.json (some s.timestamp) s.registers (some fallbackNote) := by
  have hfull : api_read_live ReadOutcome.connectFailed [wRow]
      (Response.json (some 4) [9] (some fallbackNote), [wRow]) := by
    refine ⟨some wRow, ⟨[wRow], ⟨List.Perm.refl _, ?_⟩, rfl⟩, rfl⟩
    show List.Pairwise _ _
    decide
  exact (api_read_live_three_tier ReadOutcome.connectFailed [wRow] _ _ hfull).2.1
    rfl (by decide)

/-! ## C5 — readLive does not persist a successful read -/

/-- C5 (counterexample): a successful live read over the empty store
returns the live-tagged registers but leaves the store empty — it does not
gain the one snapshot the claim requires. -/
theorem api_read_live_no_append :
    api_read_live (ReadOutcome.registers [1, 2, 3]) []
      (Response.json none [1, 2, 3] none, []) ∧
    ¬ ([] : List LatestValues).length = ([] : List LatestValues).length + 1 :=
  ⟨rfl, by decide⟩

/-- C5 (amended): `GET /read_live` calls the transport directly rather than
a persisting poll: the store is unchanged on every path, and a successful
read returns the live-tagged registers without appending them. -/
theorem api_read_live_store_unchanged (o : ReadOutcome) (db : List LatestValues)
    (resp : Response) (db' : List LatestValues)
    (h : api_read_live o db (resp, db')) :
    db' = db ∧
    ∀ regs, readRegistersVal o = some regs →
      resp = Response.json none regs none := by
  unfold api_read_live at h
  cases hv : readRegistersVal o with
  | some regs =>
    rw [hv] at h
    replace h : (resp, db') = (Response.json none regs none, db) := h
    rw [Prod.mk.injEq] at h
    refine ⟨h.2, ?_⟩
    intro regs2 hr2
    injection hr2 with he
    subst he
    exact h.1
  | none =>
    rw [hv] at h
    replace h : ∃ r, read_latest_snapshot db r ∧
        (resp, db') = (fallbackResponse r, db) := h
    obtain ⟨r, _, heq⟩ := h
    rw [Prod.mk.injEq] at heq
    exact ⟨heq.2, fun regs2 hr2 => Option.noConfusion hr2⟩

/-- Witness for `api_read_live_store_unchanged` at a successful read over
the empty store. -/
theorem api_read_live_store_unchanged_witness :
    ([] : List LatestValues) = [] ∧
    ∀ regs, readRegistersVal (ReadOutcome.registers [7]) = some regs →
      Response.json none [7] none = Response.json none regs none :=
  api_read_live_store_unchanged (ReadOutcome.registers [7]) []
    (Response.json none [7] none) [] rfl

/-! ## C6 — POST /poll: 503 with no fallback, or persist-and-return -/

/-- C6: `POST /poll` raises 503 with the store untouched whenever the read
fails, regardless of the store's contents; on success it appends exactly
one snapshot — the created row, with the store-assigned timestamp — and
returns that row's timestamp and registers. -/
theorem api_poll_policy (o : ReadOutcome) (db : List LatestValues) (now : Nat) :
    (readRegistersVal o = none →
      api_poll o db now = (Response.httpError 503 pollFailDetail, db)) ∧
    (∀ regs, readRegistersVal o = some regs →
      api_poll o db now
          = (Response.json (some now) regs none, db ++ [⟨nextId db, now, regs⟩]) ∧
      (api_poll o db now).2.length = db.length + 1) := by
  cases hv : readRegistersVal o with
  | none =>
    refine ⟨fun _ => ?_, fun regs hr => Option.noConfusion hr⟩
    simp [api_poll, hv]
  | some regs0 =>
    refine ⟨fun h0 => Option.noConfusion h0, fun regs hr => ?_⟩
    injection hr with he
    subst he
    refine ⟨?_, ?_⟩
    · simp [api_poll, hv, create_snapshot]
    · simp [api_poll, hv, create_snapshot]

/-- Witness for `api_poll_policy`: a failed poll over `[exRowA]` and a
successful poll over the empty store. -/
theorem api_poll_policy_witness :
    api_poll ReadOutcome.connectFailed [exRowA] 9
        = (Response.httpError 503 pollFailDetail, [exRowA]) ∧
    api_poll (ReadOutcome.registers [1, 2]) [] 9
        = (Response.json (some 9) [1, 2] none, [⟨1, 9, [1, 2]⟩]) := by
  constructor
  · exact (api_poll_policy ReadOutcome.connectFailed [exRowA] 9).1 rfl
  · have h := ((api_poll_policy (ReadOutcome.registers [1, 2]) [] 9).2 [1, 2] rfl).1
    simpa [nextId] using h

/-! ## C8 — cache-only reads -/

/-- C8: `GET /snapshot` and `GET /read_latest` never consult the device
transport (their handlers are functions of the store alone — they take no
transport outcome); on an empty store both raise 404, and on the store
produced by one `create_snapshot` on an empty store both return exactly the
appended row's timestamp and registers. -/
theorem api_snapshot_cache_only :
    (∀ resp, api_snapshot [] resp → resp = Response.httpError 404 noCacheDetail) ∧
    (∀ resp, api_read_latest [] resp → resp = Response.httpError 404 noCacheDetail) ∧
    (∀ now regs resp, api_snapshot (create_snapshot [] now regs).1 resp →
      resp = Response.json (some now) regs none) ∧
    (∀ now regs resp, api_read_latest (create_snapshot [] now regs).1 resp →
      resp = Response.json (some now) regs none) := by
  have hempty : ∀ resp,
      (∃ r, read_latest_snapshot [] r ∧ resp = latestResponse r) →
      resp = Response.httpError 404 noCacheDetail := by
    rintro resp ⟨r, hr, hresp⟩
    have hn : r = none := (read_latest_snapshot_none_iff hr).mpr rfl
    subst hn
    exact hresp
  have hone : ∀ now regs resp,
      (∃ r, read_latest_snapshot (create_snapshot [] now regs).1 r ∧
        resp = latestResponse r) →
      resp = Response.json (some now) regs none := by
    rintro now regs resp ⟨r, hr, hresp⟩
    have h1 : (create_snapshot [] now regs).1 = [⟨1, now, regs⟩] := rfl
    rw [h1] at hr
    have hs := read_latest_snapshot_singleton hr
    subst hs
    exact hresp
  exact ⟨hempty, hempty, hone, hone⟩

/-- Witness for `api_snapshot_cache_only`: after appending registers `[5]`
at time 6 to the empty store, `GET /snapshot` returns that row. -/
theorem api_snapshot_cache_only_witness :
    api_snapshot (create_snapshot [] 6 [5]).1 (Response.json (some 6) [5] none) ∧
    Response.json (some 6) [5] none = Response.json (some 6) [5] none := by
  have hsnap : api_snapshot (create_snapshot [] 6 [5]).1
      (Response.json (some 6) [5] none) := by
    refine ⟨some ⟨1, 6, [5]⟩, ⟨[⟨1, 6, [5]⟩], ⟨List.Perm.refl _, ?_⟩, rfl⟩, rfl⟩
    show List.Pairwise _ _
    decide
  exact ⟨hsnap, api_snapshot_cache_only.2.2.1 6 [5] _ hsnap⟩

/-! ## C3 — history(limit) -/

/-- C3 (counterexample): `limit = -1` on the one-row store may return the
row — the query runs on SQLite, which treats a negative `LIMIT` as "no
limit" — not the empty sequence the claim requires for `limit <= 0`. -/
theorem read_snapshot_history_negative_limit :
    read_snapshot_history [exRowA] (-1) [exRowA] ∧
    ([exRowA] : List LatestValues) ≠ [] := by
  refine ⟨⟨[exRowA], ⟨List.Perm.refl _, ?_⟩, ?_⟩, by decide⟩
  · show List.Pairwise _ _
    decide
  · show [exRowA] = sqlLimit (-1) [exRowA]
    decide

/-- C3 (amended): a history result is newest-first and a prefix of a full
`ORDER BY timestamp DESC` ordering of the store; for `limit >= 0` it has at
most `limit` rows, `limit = 0` yields the empty sequence, a `limit` at
least the stored count returns all rows — but a negative `limit` also
returns all rows (SQLite: negative `LIMIT` means unbounded), not the empty
sequence. -/
theorem read_snapshot_history_spec (db : List LatestValues) (limit : Int)
    (rows : List LatestValues) (h : read_snapshot_history db limit rows) :
    sortedByTimestampDesc rows ∧
    (∃ full, orderByTimestampDesc db full ∧ ∃ rest, full = rows ++ rest) ∧
    (0 ≤ limit → rows.length ≤ limit.toNat) ∧
    (limit = 0 → rows = []) ∧
    (limit < 0 → rows.length = db.length) ∧
    ((db.length : Int) ≤ limit → rows.length = db.length) := by
  obtain ⟨out, ⟨hperm, hsort⟩, hrows⟩ := h
  have hlen : out.length = db.length := hperm.length_eq.symm
  by_cases hle : 0 ≤ limit
  · have hr : rows = out.take limit.toNat := by
      rw [hrows]; simp [sqlLimit, hle]
    refine ⟨?_, ⟨out, ⟨hperm, hsort⟩, ⟨out.drop limit.toNat, ?_⟩⟩, ?_, ?_, ?_, ?_⟩
    · rw [hr]
      exact List.Pairwise.sublist (List.take_sublist _ _) hsort
    · rw [hr, List.take_append_drop]
    · intro _
      rw [hr, List.length_take]
      exact Nat.min_le_left _ _
    · intro h0
      rw [hr, h0]
      simp
    · intro hneg
      exact absurd hneg (by omega)
    · intro hbig
      have h1 : out.length ≤ limit.toNat := by omega
      rw [hr, List.length_take, Nat.min_eq_right h1, hlen]
  · have hr : rows = out := by
      rw [hrows]; simp [sqlLimit, hle]
    refine ⟨hr ▸ hsort, ⟨out, ⟨hperm, hsort⟩, ⟨[], by rw [hr, List.append_nil]⟩⟩,
      fun hc => absurd hc hle, fun h0 => absurd (by omega : (0 : Int) ≤ limit) hle,
      fun _ => by rw [hr, hlen], fun hbig => absurd (by omega : (0 : Int) ≤ limit) hle⟩

/-- Witness for `read_snapshot_history_spec`: the one-row store with
`limit = 5`. -/
theorem read_snapshot_history_spec_witness :
    sortedByTimestampDesc [exRowA] ∧
    ([exRowA] : List LatestValues).length ≤ (5 : Int).toNat := by
  have h := read_snapshot_history_spec [exRowA] 5 [exRowA]
    ⟨[exRowA], ⟨List.Perm.refl _, by show List.Pairwise _ _; decide⟩,
      by show [exRowA] = sqlLimit 5 [exRowA]; decide⟩
  exact ⟨h.1, h.2.2.1 (by decide)⟩

end ModbusMvp
